import Mathlib

/-!
Verification of the astrolabe layout engine (dcf21/astrolabe).

The definitions below are a shallow embedding of the Python sources:
`constants.py`, `climate.py`, `mother_back.py`, `mother_front.py`, `rete.py`,
`rule.py`, `calendar.py`, `settings.py`, `astrolabe.py` and
`graphics_context.py`.  Machine floating-point arithmetic is embedded as real
arithmetic; integer quantities use `Int` and exact fractions use `Rat`.
-/

/- ------------------------------------------------------------------ -/
/- constants.py                                                        -/
/- ------------------------------------------------------------------ -/

noncomputable def unit_cm : ℝ := 1 / 100

noncomputable def unit_mm : ℝ := 1 / 1000

noncomputable def unit_deg : ℝ := Real.pi / 180

noncomputable def unit_rev : ℝ := 2 * Real.pi

/-- Outer radius of astrolabe (`r_1 = 8.5 * unit_cm`). -/
noncomputable def r_1 : ℝ := 8.5 * unit_cm

/-- Distance between circles drawn on back of mother (`d_12 = 0.07 * r_1`). -/
noncomputable def d_12 : ℝ := 0.07 * r_1

/-- Scaling factor for size of hole in middle of astrolabe. -/
noncomputable def centre_scaling : ℝ := 1 / 2.5 * 0.6

/-- Inclination of the ecliptic, degrees. -/
noncomputable def inclination_ecliptic : ℝ := 23.5

/-- Size of tab into which climate slots. -/
noncomputable def tab_size : ℝ := 5 * unit_deg

/- ------------------------------------------------------------------ -/
/- Settings dictionaries (astrolabe.py, settings.py, per-file mains)   -/
/- ------------------------------------------------------------------ -/

/-- A value stored in a Python settings dictionary. -/
inductive SettingValue where
  | str (s : String)
  | int (z : ℤ)
deriving DecidableEq

/-- A Python settings dictionary: a partial map from string keys to values. -/
def Settings : Type := String → Option SettingValue

/-- The settings dictionary built by the batch driver (astrolabe.py,
`settings = ...`): it contains only the keys language, latitude and theme. -/
def driver_settings (language : String) (latitude : ℤ) (theme : String) : Settings :=
  fun key =>
    if key = "language" then some (SettingValue.str language)
    else if key = "latitude" then some (SettingValue.int latitude)
    else if key = "theme" then some (SettingValue.str theme)
    else none

/-- The settings dictionary built by the per-component command-line entry
points (e.g. the main block of climate.py): only latitude and language. -/
def command_line_settings (latitude : ℤ) : Settings :=
  fun key =>
    if key = "latitude" then some (SettingValue.int latitude)
    else if key = "language" then some (SettingValue.str "en")
    else none

/-- A Python dictionary subscript `settings[key]`: returns the value, or
raises a KeyError when the key is absent. -/
def dict_get (settings : Settings) (key : String) : Except String SettingValue :=
  match settings key with
  | some v => Except.ok v
  | none => Except.error ("KeyError: " ++ key)

/-- Evaluation of the expression `settings['astrolabe_type'] == 'full'`,
as it appears in climate.py, mother_back.py and rule.py. -/
def astrolabe_type_is_full (settings : Settings) : Except String Bool :=
  (dict_get settings "astrolabe_type").map
    (fun v => decide (v = SettingValue.str "full"))

/-- `BaseComponent.__init__` (graphics_context.py): stores the settings
dictionary unchanged; it contains no validation and cannot raise. -/
def BaseComponent_init (settings : Settings) : Except String Settings :=
  Except.ok settings

/-- Bounding box dictionary returned by the components. -/
structure BoundingBox where
  x_min : ℝ
  x_max : ℝ
  y_min : ℝ
  y_max : ℝ

/- ------------------------------------------------------------------ -/
/- astrolabe.py batch driver latitude loop                             -/
/- ------------------------------------------------------------------ -/

/-- The test `-10 < latitude < 10` guarding the `continue` statement of
the batch loop in astrolabe.py. -/
def batch_skips_latitude (latitude : ℤ) : Bool :=
  decide (-10 < latitude) && decide (latitude < 10)

/-- `list(range(-80, 90, 5)) + [52]`: the latitudes the batch loop visits. -/
def batch_latitudes : List ℤ :=
  ((List.range 34).map (fun i => -80 + 5 * (i : ℤ))) ++ [52]

/-- The latitudes for which the batch driver actually renders components:
those the `continue` filter does not skip. -/
def batch_rendered_latitudes : List ℤ :=
  batch_latitudes.filter (fun latitude => !(batch_skips_latitude latitude))

/- ------------------------------------------------------------------ -/
/- climate.py                                                          -/
/- ------------------------------------------------------------------ -/

namespace Climate

/-- `Climate.__init__` is inherited from `BaseComponent`: it stores the
settings with no validation. -/
def init (settings : Settings) : Except String Settings :=
  BaseComponent_init settings

/-- `Climate.bounding_box`: a square of half-side `r_1 - d_12 * 2.5`
centred on the origin.  The settings argument is ignored by the source. -/
noncomputable def bounding_box (_settings : Settings) : BoundingBox :=
  { x_min := -(r_1 - d_12 * 2.5)
    x_max := r_1 - d_12 * 2.5
    y_min := -(r_1 - d_12 * 2.5)
    y_max := r_1 - d_12 * 2.5 }

/-- The radius of the tab at the top of climate. -/
noncomputable def r_tab : ℝ := r_1 - d_12 * 2.5 - unit_mm

/-- Outer radius of climate. -/
noncomputable def r_2 : ℝ := r_1 - d_12 * 3 - unit_mm

/-- Radius of central hole. -/
noncomputable def r_3 : ℝ := d_12 * centre_scaling

/-- Radius of the line denoting the equator. -/
noncomputable def r_4 : ℝ := r_2 * Real.tan ((90 - inclination_ecliptic) / 2 * unit_deg)

/-- Radius of the line denoting the tropic of Cancer. -/
noncomputable def r_5 : ℝ := r_4 * Real.tan ((90 - inclination_ecliptic) / 2 * unit_deg)

/-- The climate radii listed outer-to-inner are strictly positive and
strictly decreasing: `r_2 > r_4 > r_5 > r_3 > 0`. -/
def radii_descending : Prop :=
  0 < r_3 ∧ r_3 < r_5 ∧ r_5 < r_4 ∧ r_4 < r_2

/-- Evaluation of `settings['astrolabe_type'] == 'full'` at climate.py. -/
def astrolabe_type_check (settings : Settings) : Except String Bool :=
  astrolabe_type_is_full settings

end Climate

/- ------------------------------------------------------------------ -/
/- mother_back.py                                                      -/
/- ------------------------------------------------------------------ -/

namespace MotherBack

/-- Scale of angles around the rim of the astrolabe. -/
noncomputable def r_2 : ℝ := r_1 - d_12

noncomputable def r_3 : ℝ := r_2 - d_12 / 2

/-- Zodiacal constellations. -/
noncomputable def r_4 : ℝ := r_3 - d_12

noncomputable def r_5 : ℝ := r_4 - d_12

/-- Calendar for 1394. -/
noncomputable def r_6 : ℝ := r_5 - d_12

noncomputable def r_7 : ℝ := r_6 - d_12

/-- Days of the year. -/
noncomputable def r_8 : ℝ := r_7 - d_12 / 2

/-- Calendar for 1974. -/
noncomputable def r_9 : ℝ := r_8 - d_12

noncomputable def r_10 : ℝ := r_9 - d_12

/-- Saints' days. -/
noncomputable def r_11 : ℝ := r_10 - d_12

noncomputable def r_12 : ℝ := r_11 - d_12

/-- Radius of the central hole. -/
noncomputable def r_13 : ℝ := d_12 * centre_scaling

/-- The mother-back radii listed outer-to-inner are strictly positive and
strictly decreasing: `r_1 > r_2 > ... > r_12 > r_13 > 0`. -/
def radii_descending : Prop :=
  0 < r_13 ∧ r_13 < r_12 ∧ r_12 < r_11 ∧ r_11 < r_10 ∧ r_10 < r_9 ∧ r_9 < r_8 ∧
  r_8 < r_7 ∧ r_7 < r_6 ∧ r_6 < r_5 ∧ r_5 < r_4 ∧ r_4 < r_3 ∧ r_3 < r_2 ∧ r_2 < r_1

/-- Evaluation of `settings['astrolabe_type'] == 'full'` at mother_back.py. -/
def astrolabe_type_check (settings : Settings) : Except String Bool :=
  astrolabe_type_is_full settings

end MotherBack

/- ------------------------------------------------------------------ -/
/- rete.py                                                             -/
/- ------------------------------------------------------------------ -/

namespace Rete

/-- Outer radius of the rete. -/
noncomputable def r_2 : ℝ := r_1 - d_12 * 3 - unit_mm

/-- Radius of the hole through the centre. -/
noncomputable def r_3 : ℝ := d_12 * centre_scaling

/-- Radius of the line denoting the equator. -/
noncomputable def r_4 : ℝ := r_2 * Real.tan ((90 - inclination_ecliptic) / 2 * unit_deg)

/-- Radius of the line denoting the tropic of Cancer. -/
noncomputable def r_5 : ℝ := r_4 * Real.tan ((90 - inclination_ecliptic) / 2 * unit_deg)

end Rete

/-- An arc drawing primitive as passed to `GraphicsContext.arc`. -/
structure Arc where
  centre_x : ℝ
  centre_y : ℝ
  radius : ℝ
  arc_from : ℝ
  arc_to : ℝ

/-- Python `math.atan2(y, x)`: the argument of the complex number `x + i y`,
in the interval `(-pi, pi]`. -/
noncomputable def atan2 (y x : ℝ) : ℝ := Complex.arg ⟨x, y⟩

namespace MotherBack

/-- The angles `arange(15 * unit_deg, 75.1 * unit_deg, 15 * unit_deg)` at
which mother_back.py draws the unequal-hours arcs. -/
noncomputable def unequal_hour_angles : List ℝ :=
  [15 * unit_deg, 30 * unit_deg, 45 * unit_deg, 60 * unit_deg, 75 * unit_deg]

/-- Vertical position of the centre of an unequal-hours arc. -/
noncomputable def unequal_hour_y_centre (θ : ℝ) : ℝ :=
  r_12 * Real.cos θ / 2 + r_12 * Real.sin θ / 2 * Real.tan θ

/-- The unequal-hours arc drawn at angle `θ`: centred on the vertical axis
at `-y_centre`, with radius equal to `y_centre`. -/
noncomputable def unequal_hour_arc (θ : ℝ) : Arc :=
  { centre_x := 0
    centre_y := -(unequal_hour_y_centre θ)
    radius := unequal_hour_y_centre θ
    arc_from := atan2 (r_12 * Real.sin θ) (r_12 * Real.cos θ / 2 - r_12 * Real.sin θ / 2 * Real.tan θ)
                - Real.pi / 2
    arc_to := -(atan2 (r_12 * Real.sin θ) (r_12 * Real.cos θ / 2 - r_12 * Real.sin θ / 2 * Real.tan θ))
              - Real.pi / 2 }

end MotherBack

/- ------------------------------------------------------------------ -/
/- mother_front.py                                                     -/
/- ------------------------------------------------------------------ -/

namespace MotherFront

/-- The 24 hour symbols drawn around the rim (mother_front.py): a cross
glyph followed by 23 letters. -/
def hour_letters : List String :=
  ["✠", "A", "B", "C", "D", "E", "F", "G", "H", "I", "K", "L", "M", "N",
   "O", "P", "Q", "R", "S", "T", "U", "X", "Y", "Z"]

/-- The 26 letters of the Latin alphabet, in order. -/
def alphabet : List String :=
  ["A", "B", "C", "D", "E", "F", "G", "H", "I", "J", "K", "L", "M",
   "N", "O", "P", "Q", "R", "S", "T", "U", "V", "W", "X", "Y", "Z"]

/-- Modelled from the spec: the hour-symbol list the specification
describes, a cross glyph at the 0/24 boundary followed by the letters of
the alphabet A to Z with J and W skipped. -/
def spec_hour_letters : List String :=
  "✠" :: alphabet.filter (fun c => !(c == "J" || c == "W"))

/-- The angle at which the `i`-th hour symbol is placed: `i/24` of a full
revolution, negated in the southern hemisphere (mother_front.py). -/
noncomputable def hour_letter_angle (is_southern : Bool) (i : ℕ) : ℝ :=
  if is_southern then -((i : ℝ) / 24 * unit_rev) else (i : ℝ) / 24 * unit_rev

end MotherFront

/- ------------------------------------------------------------------ -/
/- Stars on the rete (rete.py)                                         -/
/- ------------------------------------------------------------------ -/

/-- A record from the Yale Bright Star Catalogue as consumed by rete.py:
right ascension, declination (degrees) and magnitude.  A magnitude of
`none` embeds the catalogue's missing-magnitude marker. -/
structure StarDescriptor where
  ra : ℝ
  dec : ℝ
  mag : Option ℝ

namespace Rete

/-- The planar radius at which rete.py plots a star: the declination is
negated in the southern hemisphere, then `r = r_4 * tan((90 - dec)/2)`. -/
noncomputable def star_projected_radius (is_southern : Bool) (star : StarDescriptor) : ℝ :=
  r_4 * Real.tan ((90 - (if is_southern then -star.dec else star.dec)) * unit_deg / 2)

/-- rete.py draws a circle for a star exactly when its magnitude is
present and not greater than 4.0 and its projected radius is not greater
than the rete's outer radius `r_2` (the two `continue` guards). -/
def StarPlotted (is_southern : Bool) (star : StarDescriptor) : Prop :=
  ∃ m, star.mag = some m ∧ ¬(4.0 < m) ∧ ¬(r_2 < star_projected_radius is_southern star)

end Rete

/- ------------------------------------------------------------------ -/
/- Stereographic projection (rete.py / rule.py) and its inverse        -/
/- ------------------------------------------------------------------ -/

/-- The stereographic projection used by rete.py and rule.py: a
declination `dec` (degrees) maps to the planar radius
`R * tan((90 - dec) * unit_deg / 2)` relative to the equator radius `R`. -/
noncomputable def declination_to_radius (R dec : ℝ) : ℝ :=
  R * Real.tan ((90 - dec) * unit_deg / 2)

/-- Modelled from the spec: the inverse stereographic projection
`d = 90 - 2 * arctan(r / R)` (result in degrees).  The sources compute
only the forward projection; the inverse direction of the round-trip
property exists only in the specification. -/
noncomputable def radius_to_declination (R r : ℝ) : ℝ :=
  90 - 2 * Real.arctan (r / R) / unit_deg

/- ------------------------------------------------------------------ -/
/- rule.py                                                             -/
/- ------------------------------------------------------------------ -/

namespace Rule

/-- Outer radius of rete, as recomputed by rule.py. -/
noncomputable def r_2 : ℝ := r_1 - d_12 * 3 - unit_mm

/-- Radius of equator, as recomputed by rule.py. -/
noncomputable def r_4 : ℝ := r_2 * Real.tan ((90 - inclination_ecliptic) / 2 * unit_deg)

/-- Outer radius of shadow scale. -/
noncomputable def r_12 : ℝ := r_1 - d_12 * 10

/-- Evaluation of `settings['astrolabe_type'] == 'full'` at rule.py. -/
def astrolabe_type_check (settings : Settings) : Except String Bool :=
  astrolabe_type_is_full settings

end Rule

/- ------------------------------------------------------------------ -/
/- calendar.py                                                         -/
/- ------------------------------------------------------------------ -/

namespace Calendar

/-- The fraction of a day represented by the time-of-day arguments of
`julian_day`. -/
def day_fraction (hour minute : ℤ) (sec : ℚ) : ℚ :=
  ((hour : ℚ) + (minute : ℚ) / 60 + sec / 3600) / 24

/-- The Julian-calendar branch of `julian_day` (calendar.py): the month
and year are first shifted so that the year starts in March, then
`b = -2 + floor((year + 4716) / 4) - 1179`. -/
def julian_day_julian_calendar (year month day hour minute : ℤ) (sec : ℚ) : ℚ :=
  let year2 : ℤ := if month ≤ 2 then year - 1 else year
  let month2 : ℤ := if month ≤ 2 then month + 12 else month
  let b : ℤ := -2 + (year2 + 4716).fdiv 4 - 1179
  365 * (year2 : ℚ) - 679004 + 2400000.5 + (b : ℚ)
    + ((⌊(30.6001 : ℚ) * ((month2 : ℚ) + 1)⌋ : ℤ) : ℚ) + (day : ℚ)
    + day_fraction hour minute sec

/-- The Gregorian-calendar branch of `julian_day` (calendar.py):
`b = floor(year / 400) - floor(year / 100) + floor(year / 4)`. -/
def julian_day_gregorian_calendar (year month day hour minute : ℤ) (sec : ℚ) : ℚ :=
  let year2 : ℤ := if month ≤ 2 then year - 1 else year
  let month2 : ℤ := if month ≤ 2 then month + 12 else month
  let b : ℤ := year2.fdiv 400 - year2.fdiv 100 + year2.fdiv 4
  365 * (year2 : ℚ) - 679004 + 2400000.5 + (b : ℚ)
    + ((⌊(30.6001 : ℚ) * ((month2 : ℚ) + 1)⌋ : ℤ) : ℚ) + (day : ℚ)
    + day_fraction hour minute sec

/-- `julian_day` (calendar.py).  The encoded request date is
`req_date = 10000 * year + 100 * month + day`; the constants 15821209 and
15821220 are the source's `last_julian` and `first_gregorian`. -/
def julian_day (year month day hour minute : ℤ) (sec : ℚ) : Except String ℚ :=
  if 10000 * year + 100 * month + day ≤ 15821209 then
    Except.ok (julian_day_julian_calendar year month day hour minute sec)
  else if 15821220 ≤ 10000 * year + 100 * month + day then
    Except.ok (julian_day_gregorian_calendar year month day hour minute sec)
  else
    Except.error "The requested date never happened"

/-- The calendar date (year, month, day) lies strictly after 9 December
1582 and strictly before 20 December 1582. -/
def date_in_calendar_gap (year month day : ℤ) : Prop :=
  ((1582 < year) ∨ (year = 1582 ∧ ((12 < month) ∨ (month = 12 ∧ 9 < day)))) ∧
  ((year < 1582) ∨ (year = 1582 ∧ ((month < 12) ∨ (month = 12 ∧ day < 20))))

instance (year month day : ℤ) : Decidable (date_in_calendar_gap year month day) := by
  unfold date_in_calendar_gap
  exact inferInstance

/-- The calendar date (year, month, day) is on or before 9 December 1582. -/
def date_on_or_before_julian_end (year month day : ℤ) : Prop :=
  (year < 1582) ∨ (year = 1582 ∧ ((month < 12) ∨ (month = 12 ∧ day ≤ 9)))

instance (year month day : ℤ) : Decidable (date_on_or_before_julian_end year month day) := by
  unfold date_on_or_before_julian_end
  exact inferInstance

end Calendar

/- ------------------------------------------------------------------ -/
/- Shared bounds on the stereographic scale factor tan(33.25 deg)      -/
/- ------------------------------------------------------------------ -/

lemma proj_angle_eq : (90 - inclination_ecliptic) / 2 * unit_deg = 33.25 * (Real.pi / 180) := by
  unfold inclination_ecliptic unit_deg
  norm_num

lemma proj_angle_pos : 0 < (90 - inclination_ecliptic) / 2 * unit_deg := by
  rw [proj_angle_eq]
  positivity

lemma proj_angle_lt_pi_div_four : (90 - inclination_ecliptic) / 2 * unit_deg < Real.pi / 4 := by
  rw [proj_angle_eq]
  nlinarith [Real.pi_pos]

lemma proj_angle_lt_pi_div_two : (90 - inclination_ecliptic) / 2 * unit_deg < Real.pi / 2 := by
  have h4 : Real.pi / 4 < Real.pi / 2 := by nlinarith [Real.pi_pos]
  exact lt_trans proj_angle_lt_pi_div_four h4

lemma tan_proj_pos : 0 < Real.tan ((90 - inclination_ecliptic) / 2 * unit_deg) :=
  Real.tan_pos_of_pos_of_lt_pi_div_two proj_angle_pos proj_angle_lt_pi_div_two

lemma tan_proj_lt_one : Real.tan ((90 - inclination_ecliptic) / 2 * unit_deg) < 1 := by
  have h := Real.tan_lt_tan_of_nonneg_of_lt_pi_div_two (le_of_lt proj_angle_pos)
    (by nlinarith [Real.pi_pos] : Real.pi / 4 < Real.pi / 2) proj_angle_lt_pi_div_four
  rwa [Real.tan_pi_div_four] at h

lemma tan_proj_gt : (0.55 : ℝ) < Real.tan ((90 - inclination_ecliptic) / 2 * unit_deg) := by
  have h := Real.lt_tan proj_angle_pos proj_angle_lt_pi_div_two
  have hlb : (0.55 : ℝ) < (90 - inclination_ecliptic) / 2 * unit_deg := by
    rw [proj_angle_eq]
    nlinarith [Real.pi_gt_three]
  linarith

/- ------------------------------------------------------------------ -/
/- Claims                                                              -/
/- ------------------------------------------------------------------ -/

/-- C1: for every latitude outside the open interval (-10, 10) degrees, the
mother-back radii `r_1 > r_2 > ... > r_12 > r_13 > 0` (from `r_1 = 8.5 cm`
and `d_12 = 0.07 * r_1`) and the climate radii `r_2 > r_4 > r_5 > r_3 > 0`
are strictly positive and strictly decreasing outer-to-inner. -/
theorem claim_C1_radii_descending (latitude : ℝ) (_h : latitude ≤ -10 ∨ 10 ≤ latitude) :
    MotherBack.radii_descending ∧ Climate.radii_descending := by
  constructor
  · unfold MotherBack.radii_descending
    norm_num [MotherBack.r_13, MotherBack.r_12, MotherBack.r_11, MotherBack.r_10,
      MotherBack.r_9, MotherBack.r_8, MotherBack.r_7, MotherBack.r_6, MotherBack.r_5,
      MotherBack.r_4, MotherBack.r_3, MotherBack.r_2, r_1, d_12, centre_scaling, unit_cm]
  · have ht1 := tan_proj_pos
    have ht2 := tan_proj_lt_one
    have ht3 := tan_proj_gt
    have hr2 : Climate.r_2 = 0.06615 := by
      norm_num [Climate.r_2, r_1, d_12, unit_cm, unit_mm]
    have hr3 : Climate.r_3 = 0.001428 := by
      norm_num [Climate.r_3, d_12, r_1, centre_scaling, unit_cm]
    have hr4 : Climate.r_4 =
        0.06615 * Real.tan ((90 - inclination_ecliptic) / 2 * unit_deg) := by
      unfold Climate.r_4
      rw [hr2]
    have hr5 : Climate.r_5 =
        0.06615 * Real.tan ((90 - inclination_ecliptic) / 2 * unit_deg) *
          Real.tan ((90 - inclination_ecliptic) / 2 * unit_deg) := by
      unfold Climate.r_5
      rw [hr4]
    unfold Climate.radii_descending
    rw [hr3, hr5, hr4, hr2]
    refine ⟨by norm_num, by nlinarith, by nlinarith, by nlinarith⟩

/-- Witness for C1 at latitude 52. -/
theorem claim_C1_witness :
    ((52 : ℝ) ≤ -10 ∨ (10 : ℝ) ≤ 52) ∧
    (MotherBack.radii_descending ∧ Climate.radii_descending) :=
  ⟨Or.inr (by norm_num), claim_C1_radii_descending 52 (Or.inr (by norm_num))⟩

/-- C2 counterexample: constructing a Climate component with latitude 5
succeeds (the constructor stores the settings and performs no validation),
refuting the claim that construction fails with a domain error. -/
theorem claim_C2_counterexample :
    Climate.init (driver_settings "en" 5 "default") =
      Except.ok (driver_settings "en" 5 "default") := rfl

/-- C2 (amended): for every latitude strictly inside (-10, 10) the batch
driver's filter skips the latitude, so that latitude is never rendered by
the driver; component construction itself performs no validation and
succeeds. -/
theorem claim_C2_amended (latitude : ℤ) (h1 : -10 < latitude) (h2 : latitude < 10) :
    batch_skips_latitude latitude = true ∧
    latitude ∉ batch_rendered_latitudes ∧
    (∀ language theme, Climate.init (driver_settings language latitude theme) =
      Except.ok (driver_settings language latitude theme)) := by
  refine ⟨?_, ?_, fun _ _ => rfl⟩
  · unfold batch_skips_latitude
    simp [h1, h2]
  · intro hmem
    unfold batch_rendered_latitudes at hmem
    rw [List.mem_filter] at hmem
    have hcond := hmem.2
    unfold batch_skips_latitude at hcond
    simp [h1, h2] at hcond

/-- Witness for the amended C2 at latitude 5. -/
theorem claim_C2_witness :
    ((-10 : ℤ) < 5) ∧ ((5 : ℤ) < 10) ∧
    (batch_skips_latitude 5 = true ∧ (5 : ℤ) ∉ batch_rendered_latitudes ∧
      (∀ language theme, Climate.init (driver_settings language 5 theme) =
        Except.ok (driver_settings language 5 theme))) :=
  ⟨by decide, by decide, claim_C2_amended 5 (by decide) (by decide)⟩

/-- C3: for every declination in [-89, 89] degrees and every positive
reference radius, projecting with `r = R * tan((90 - d)/2)` and then
inverse-projecting with `d = 90 - 2 * arctan(r / R)` recovers the
declination exactly. -/
theorem claim_C3_projection_round_trip (R d : ℝ) (hR : 0 < R)
    (hd1 : -89 ≤ d) (hd2 : d ≤ 89) :
    radius_to_declination R (declination_to_radius R d) = d := by
  have hpi := Real.pi_pos
  have hud : unit_deg = Real.pi / 180 := rfl
  have hx1 : -(Real.pi / 2) < (90 - d) * unit_deg / 2 := by
    rw [hud]
    nlinarith [mul_pos (show (0 : ℝ) < 90 - d by linarith) hpi]
  have hx2 : (90 - d) * unit_deg / 2 < Real.pi / 2 := by
    rw [hud]
    nlinarith [mul_pos hpi (show (0 : ℝ) < d + 90 by linarith)]
  have hud0 : unit_deg ≠ 0 := by
    rw [hud]
    positivity
  unfold radius_to_declination declination_to_radius
  rw [mul_div_cancel_left₀ _ (ne_of_gt hR), Real.arctan_tan hx1 hx2]
  field_simp

/-- Witness for C3 at R = 1, d = 0. -/
theorem claim_C3_witness :
    (0 : ℝ) < 1 ∧ (-89 : ℝ) ≤ 0 ∧ (0 : ℝ) ≤ 89 ∧
    radius_to_declination 1 (declination_to_radius 1 0) = 0 :=
  ⟨by norm_num, by norm_num, by norm_num,
    claim_C3_projection_round_trip 1 0 (by norm_num) (by norm_num) (by norm_num)⟩

/-- C4: on the climate and on the rete, the equator radius is the outer
radius times `tan((90 - 23.5)/2 deg)` and the Tropic-of-Cancer radius is the
equator radius times the same factor, i.e. the outer radius times the factor
squared. -/
theorem claim_C4_equator_and_tropic :
    Climate.r_4 = Climate.r_2 * Real.tan ((90 - 23.5) / 2 * unit_deg) ∧
    Climate.r_5 = Climate.r_4 * Real.tan ((90 - 23.5) / 2 * unit_deg) ∧
    Climate.r_5 = Climate.r_2 * Real.tan ((90 - 23.5) / 2 * unit_deg) ^ 2 ∧
    Rete.r_4 = Rete.r_2 * Real.tan ((90 - 23.5) / 2 * unit_deg) ∧
    Rete.r_5 = Rete.r_4 * Real.tan ((90 - 23.5) / 2 * unit_deg) ∧
    Rete.r_5 = Rete.r_2 * Real.tan ((90 - 23.5) / 2 * unit_deg) ^ 2 := by
  have h : inclination_ecliptic = 23.5 := rfl
  refine ⟨?_, ?_, ?_, ?_, ?_, ?_⟩ <;>
    simp only [Climate.r_5, Climate.r_4, Rete.r_5, Rete.r_4, h] <;> ring

/-- C5: every unequal-hour boundary arc on the mother back is a circle whose
centre lies on the vertical axis at distance
`y = r_12 * cos θ / 2 + r_12 * sin θ / 2 * tan θ` below the origin and whose
radius equals that same `y`, for each θ in 15, 30, 45, 60, 75 degrees. -/
theorem claim_C5_unequal_hours (θ : ℝ) (_hθ : θ ∈ MotherBack.unequal_hour_angles) :
    (MotherBack.unequal_hour_arc θ).centre_x = 0 ∧
    (MotherBack.unequal_hour_arc θ).centre_y =
      -(MotherBack.r_12 * Real.cos θ / 2 + MotherBack.r_12 * Real.sin θ / 2 * Real.tan θ) ∧
    (MotherBack.unequal_hour_arc θ).radius =
      MotherBack.r_12 * Real.cos θ / 2 + MotherBack.r_12 * Real.sin θ / 2 * Real.tan θ :=
  ⟨rfl, rfl, rfl⟩

/-- Witness for C5 at θ = 45 degrees. -/
theorem claim_C5_witness :
    (45 * unit_deg ∈ MotherBack.unequal_hour_angles) ∧
    ((MotherBack.unequal_hour_arc (45 * unit_deg)).centre_x = 0 ∧
     (MotherBack.unequal_hour_arc (45 * unit_deg)).centre_y =
       -(MotherBack.r_12 * Real.cos (45 * unit_deg) / 2 +
         MotherBack.r_12 * Real.sin (45 * unit_deg) / 2 * Real.tan (45 * unit_deg)) ∧
     (MotherBack.unequal_hour_arc (45 * unit_deg)).radius =
       MotherBack.r_12 * Real.cos (45 * unit_deg) / 2 +
       MotherBack.r_12 * Real.sin (45 * unit_deg) / 2 * Real.tan (45 * unit_deg)) :=
  ⟨by simp [MotherBack.unequal_hour_angles],
   claim_C5_unequal_hours _ (by simp [MotherBack.unequal_hour_angles])⟩

/-- C6: the rete never plots a star whose magnitude exceeds 4.0, nor one
whose projected radius exceeds the rete's outer radius `r_2`. -/
theorem claim_C6_star_filtering (is_southern : Bool) (star : StarDescriptor) (m : ℝ)
    (hm : star.mag = some m)
    (h : 4.0 < m ∨ Rete.r_2 < Rete.star_projected_radius is_southern star) :
    ¬ Rete.StarPlotted is_southern star := by
  rintro ⟨m', hm', hmag, hrad⟩
  have hmm : m = m' := by
    rw [hm] at hm'
    exact Option.some.inj hm'
  rcases h with h | h
  · exact hmag (hmm ▸ h)
  · exact hrad h

/-- Witness for C6: a magnitude-5 star is not plotted. -/
theorem claim_C6_witness :
    (StarDescriptor.mk 0 0 (some 5)).mag = some 5 ∧
    ((4.0 : ℝ) < 5 ∨
      Rete.r_2 < Rete.star_projected_radius false (StarDescriptor.mk 0 0 (some 5))) ∧
    ¬ Rete.StarPlotted false (StarDescriptor.mk 0 0 (some 5)) :=
  ⟨rfl, Or.inl (by norm_num),
    claim_C6_star_filtering false _ 5 rfl (Or.inl (by norm_num))⟩

/-- C7 counterexample: the half-side of the climate bounding box is
`r_1 - 2.5 * d_12`, not `r_1 - 2.5 * d_12 - 1 mm` as claimed (the 1 mm
subtraction belongs to the tab radius inside do_rendering, not to the
bounding box). -/
theorem claim_C7_counterexample :
    (Climate.bounding_box (driver_settings "en" 52 "default")).x_max ≠
      r_1 - 2.5 * d_12 - unit_mm := by
  norm_num [Climate.bounding_box, r_1, d_12, unit_cm, unit_mm]

/-- C7 (amended): for every settings value, the climate bounding box is a
square centred on the origin with `x_min = y_min = -x_max = -y_max`, and the
half-side equals `r_1 - 2.5 * d_12` (with no 1 mm subtraction). -/
theorem claim_C7_bounding_box (settings : Settings) :
    (Climate.bounding_box settings).x_min = (Climate.bounding_box settings).y_min ∧
    (Climate.bounding_box settings).x_min = -(Climate.bounding_box settings).x_max ∧
    (Climate.bounding_box settings).y_min = -(Climate.bounding_box settings).y_max ∧
    (Climate.bounding_box settings).x_max = r_1 - 2.5 * d_12 :=
  ⟨rfl, rfl, rfl, by unfold Climate.bounding_box; ring⟩

/-- C8 counterexample: the hour symbols drawn by mother_front.py are not the
cross followed by A-Z with only J and W skipped: that list would contain
the letter V (and have 25 entries), but the code's 24-entry list omits V. -/
theorem claim_C8_counterexample :
    MotherFront.hour_letters ≠ MotherFront.spec_hour_letters ∧
    "V" ∈ MotherFront.spec_hour_letters ∧
    "V" ∉ MotherFront.hour_letters ∧
    MotherFront.spec_hour_letters.length = 25 := by decide

/-- C8 (amended): MotherFront draws exactly 24 hour symbols, a cross glyph
followed by the letters A-Z with J, V and W skipped; symbol i is placed at
angle i/24 of a revolution, negated for southern latitudes. -/
theorem claim_C8_hour_letters :
    MotherFront.hour_letters.length = 24 ∧
    MotherFront.hour_letters =
      "✠" :: MotherFront.alphabet.filter (fun c => !(c == "J" || c == "V" || c == "W")) ∧
    (∀ i : ℕ, MotherFront.hour_letter_angle false i = (i : ℝ) / 24 * unit_rev) ∧
    (∀ i : ℕ, MotherFront.hour_letter_angle true i = -(MotherFront.hour_letter_angle false i)) := by
  refine ⟨by decide, by decide, fun i => rfl, fun i => ?_⟩
  simp [MotherFront.hour_letter_angle]

/-- C9: julian_day raises the gap error exactly for dates strictly between
9 December 1582 and 20 December 1582; on or before the former it returns the
Julian-calendar value, on or after the latter the Gregorian-calendar value,
and it never silently returns a value for a gap date. -/
theorem claim_C9_julian_day (year month day hour minute : ℤ) (sec : ℚ)
    (hm1 : 1 ≤ month) (hm2 : month ≤ 12) (hd1 : 1 ≤ day) (hd2 : day ≤ 31) :
    Calendar.julian_day year month day hour minute sec =
      if Calendar.date_in_calendar_gap year month day then
        Except.error "The requested date never happened"
      else if Calendar.date_on_or_before_julian_end year month day then
        Except.ok (Calendar.julian_day_julian_calendar year month day hour minute sec)
      else
        Except.ok (Calendar.julian_day_gregorian_calendar year month day hour minute sec) := by
  unfold Calendar.julian_day
  by_cases hJ : Calendar.date_on_or_before_julian_end year month day
  · have h1 : 10000 * year + 100 * month + day ≤ 15821209 := by
      unfold Calendar.date_on_or_before_julian_end at hJ
      omega
    have hg : ¬ Calendar.date_in_calendar_gap year month day := by
      unfold Calendar.date_on_or_before_julian_end at hJ
      unfold Calendar.date_in_calendar_gap
      omega
    rw [if_pos h1, if_neg hg, if_pos hJ]
  · by_cases hG : Calendar.date_in_calendar_gap year month day
    · have h1 : ¬(10000 * year + 100 * month + day ≤ 15821209) := by
        unfold Calendar.date_in_calendar_gap at hG
        omega
      have h2 : ¬(15821220 ≤ 10000 * year + 100 * month + day) := by
        unfold Calendar.date_in_calendar_gap at hG
        omega
      rw [if_neg h1, if_neg h2, if_pos hG]
    · have h1 : ¬(10000 * year + 100 * month + day ≤ 15821209) := by
        unfold Calendar.date_on_or_before_julian_end at hJ
        omega
      have h2 : 15821220 ≤ 10000 * year + 100 * month + day := by
        unfold Calendar.date_on_or_before_julian_end at hJ
        unfold Calendar.date_in_calendar_gap at hG
        omega
      rw [if_neg h1, if_pos h2, if_neg hG, if_neg hJ]

/-- Witness for C9 at the gap date 15 December 1582. -/
theorem claim_C9_witness :
    (1 : ℤ) ≤ 12 ∧ (12 : ℤ) ≤ 12 ∧ (1 : ℤ) ≤ 15 ∧ (15 : ℤ) ≤ 31 ∧
    Calendar.julian_day 1582 12 15 12 0 0 =
      Except.error "The requested date never happened" := by
  refine ⟨by decide, by decide, by decide, by decide, ?_⟩
  rw [claim_C9_julian_day 1582 12 15 12 0 0 (by decide) (by decide) (by decide) (by decide)]
  rw [if_pos (show Calendar.date_in_calendar_gap 1582 12 15 by decide)]

/-- C10: the settings dictionaries built by the batch driver and by the
per-component command-line entry points lack the astrolabe_type key, and the
astrolabe_type branch of Climate, MotherBack and Rule raises a KeyError on
such a dictionary; no default astrolabe type is assumed. -/
theorem claim_C10_missing_astrolabe_type (language : String) (latitude : ℤ) (theme : String) :
    driver_settings language latitude theme "astrolabe_type" = none ∧
    command_line_settings latitude "astrolabe_type" = none ∧
    Climate.astrolabe_type_check (driver_settings language latitude theme) =
      Except.error "KeyError: astrolabe_type" ∧
    MotherBack.astrolabe_type_check (driver_settings language latitude theme) =
      Except.error "KeyError: astrolabe_type" ∧
    Rule.astrolabe_type_check (driver_settings language latitude theme) =
      Except.error "KeyError: astrolabe_type" := by
  refine ⟨?_, ?_, ?_, ?_, ?_⟩ <;>
    simp [driver_settings, command_line_settings, Climate.astrolabe_type_check,
      MotherBack.astrolabe_type_check, Rule.astrolabe_type_check,
      astrolabe_type_is_full, dict_get, Except.map]
